import Mathlib

/-!
Verification development for the SymbiosisFA derived-metrics core.

The definitions below are a shallow embedding, over exact rational (and, where
transcendental functions occur, real) arithmetic, of the Python modules

  * `falaw/core/math/matrix.py`    (`FundamentalFlowMatrix`)
  * `falaw/core/math/indirect.py`  (`IndirectInfluenceCalculator`)
  * `falaw/core/math/tension.py`   (`TensionFieldCalculator`)
  * `falaw/core/data_source.py`    (`DataSource.compute_primal_excitation`, default config)
  * `falaw/core/math/target.py`    (`TargetCalculator`)
  * `falaw/core/fields/chaos_field.py` (`ChaosGuidanceField` and its assessment types)

Element indices follow `falaw/models/enums.py`:
QIAN = 0, SHE = 1, XIAN = 2, LI = 3, JIE = 4, SAN = 5, HUAN = 6, KUN = 7.

Python float constants are embedded as the exact rationals they denote in the
source text (e.g. `0.12` becomes `12/100`); `numpy` float arithmetic is embedded
as exact arithmetic over `ℚ`, and `exp`/`sqrt` as `Real.exp`/`Real.sqrt`.
-/

abbrev MatQ := Matrix (Fin 8) (Fin 8) ℚ

/-- Self-retention table of `FundamentalFlowMatrix._build_fundamental_matrix`
(matrix.py lines 58-67), a dictionary lookup `ElementType → float` embedded as a
conditional chain over the element index. -/
def self_retention (i : Fin 8) : ℚ :=
  if i = 0 then 70/100 else if i = 1 then 65/100 else if i = 2 then 75/100
  else if i = 3 then 60/100 else if i = 4 then 68/100 else if i = 5 then 55/100
  else if i = 6 then 62/100 else 58/100

/-- Sparse outflow-weight table of `_build_fundamental_matrix` (matrix.py lines
74-99): rows QIAN (0), XIAN (2), LI (3), KUN (7) have listed targets, every
other cell of the pattern is absent, i.e. `0`. -/
def outflow_patterns (i j : Fin 8) : ℚ :=
  if i = 0 then
    if j = 1 then 12/100 else if j = 4 then 8/100 else if j = 6 then 7/100
    else if j = 2 then 3/100 else 0
  else if i = 2 then
    if j = 3 then 15/100 else if j = 1 then 4/100 else if j = 5 then 3/100
    else if j = 7 then 3/100 else 0
  else if i = 3 then
    if j = 2 then 12/100 else if j = 0 then 10/100 else if j = 6 then 8/100
    else if j = 5 then 10/100 else 0
  else if i = 7 then
    if j = 0 then 15/100 else if j = 2 then 12/100 else if j = 4 then 8/100
    else if j = 6 then 7/100 else 0
  else 0

/-- Steps 1-2 of `_build_fundamental_matrix`: diagonal from the self-retention
table, off-diagonal from the outflow patterns. -/
def base_matrix : MatQ := fun i j => if i = j then self_retention i else outflow_patterns i j

/-- The `symmetry_factors` table of `_build_fundamental_matrix` (matrix.py lines
109-114), in iteration order. -/
def symmetry_factors : List ((Fin 8 × Fin 8) × ℚ) :=
  [((0, 1), 6/10), ((2, 3), 8/10), ((5, 6), 7/10), ((7, 0), 3/10)]

/-- One iteration of the symmetry-completion loop (matrix.py lines 116-119):
if `R[a,b] > 0` then `R[b,a] := R[a,b] * factor`. -/
def apply_one_symmetry (M : MatQ) (p : (Fin 8 × Fin 8) × ℚ) : MatQ :=
  let a := p.1.1
  let b := p.1.2
  let f := p.2
  if 0 < M a b then fun i j => if i = b ∧ j = a then M a b * f else M i j
  else M

/-- `FundamentalFlowMatrix._build_fundamental_matrix` (matrix.py lines 51-121). -/
def build_fundamental_matrix : MatQ := symmetry_factors.foldl apply_one_symmetry base_matrix

/-- Helper for `np.argmax`: index of the first maximal element, scanning with a
current best index/value pair. -/
def np_argmax_aux : ℕ → ℕ × ℚ → List ℚ → ℕ
  | _, best, [] => best.1
  | i, best, x :: xs =>
    if best.2 < x then np_argmax_aux (i + 1) (i, x) xs
    else np_argmax_aux (i + 1) best xs

/-- `np.argmax` on a list: index of the first occurrence of the maximum
(0 on the empty list). -/
def np_argmax : List ℚ → ℕ
  | [] => 0
  | x :: xs => np_argmax_aux 1 (0, x) xs

/-- The diagonal-repair step of `_enforce_constraints` (matrix.py lines 132-137)
on one row.  Python computes `np.argmax([matrix[i,j] for j in range(8) if j != i])`
— an index into the 7-element *filtered* list — and then uses that index directly
as a *column* index (`matrix[i, max_outflow_idx] -= deficit`); the embedding
reproduces this, coercing the list position (at most 6) into `Fin 8`.  Finally
the diagonal is overwritten with `0.5`, which is also the last write in Python. -/
def fix_diag_row (r : Fin 8 → ℚ) (i : Fin 8) : Fin 8 → ℚ :=
  if r i < 1/2 then
    let others := ((List.finRange 8).filter (fun j => j ≠ i)).map r
    let k : Fin 8 := (np_argmax others : Fin 8)
    let deficit := 1/2 - r i
    fun j => if j = i then 1/2 else if j = k then r j - deficit else r j
  else r

/-- The row-normalization step of `_enforce_constraints` (matrix.py lines
139-142): divide the row by its sum when the sum differs from 1 by more than
the precision `1e-6`. -/
def normalize_row (r : Fin 8 → ℚ) : Fin 8 → ℚ :=
  let s := ∑ j, r j
  if 1/1000000 < |s - 1| then fun j => r j / s else r

/-- `FundamentalFlowMatrix._enforce_constraints` (matrix.py lines 123-142):
per row, clamp negatives to 0, repair a diagonal below 0.5, then normalize. -/
def enforce_constraints (M : MatQ) : MatQ :=
  fun i => normalize_row (fix_diag_row (fun j => max 0 (M i j)) i)

/-- The matrix held by a freshly constructed `FundamentalFlowMatrix`
(`__init__`, matrix.py lines 43-49): the built matrix with constraints
enforced. -/
def fundamental_matrix : MatQ := enforce_constraints build_fundamental_matrix

/-- `FundamentalFlowMatrix.get_flow` (matrix.py lines 144-146). -/
def get_flow (M : MatQ) (source target : Fin 8) : ℚ := M source target

/-- `FundamentalFlowMatrix.set_flow` (matrix.py lines 148-160): write the cell,
then — when the off-diagonal remainder of the row is positive — rescale every
entry of the row except the diagonal (including the cell just written) by
`(1 - diagonal) / total_other`. -/
def set_flow (M : MatQ) (source target : Fin 8) (value : ℚ) : MatQ :=
  let M1 : MatQ := fun i j => if i = source ∧ j = target then value else M i j
  let total_other := (∑ j, M1 source j) - M1 source source
  if 0 < total_other then
    fun i j =>
      if i = source ∧ j ≠ source then M1 i j * ((1 - M1 source source) / total_other)
      else M1 i j
  else M1

/-- Explicit value table for `base_matrix`; validated by `base_eq` below. -/
def lit0 (i j : Fin 8) : ℚ :=
  if i = 0 then (if j = 0 then (70/100 : ℚ) else if j = 1 then (12/100 : ℚ) else if j = 2 then (3/100 : ℚ) else if j = 3 then (0 : ℚ) else if j = 4 then (8/100 : ℚ) else if j = 5 then (0 : ℚ) else if j = 6 then (7/100 : ℚ) else (0 : ℚ))
  else if i = 1 then (if j = 0 then (0 : ℚ) else if j = 1 then (65/100 : ℚ) else if j = 2 then (0 : ℚ) else if j = 3 then (0 : ℚ) else if j = 4 then (0 : ℚ) else if j = 5 then (0 : ℚ) else if j = 6 then (0 : ℚ) else (0 : ℚ))
  else if i = 2 then (if j = 0 then (0 : ℚ) else if j = 1 then (4/100 : ℚ) else if j = 2 then (75/100 : ℚ) else if j = 3 then (15/100 : ℚ) else if j = 4 then (0 : ℚ) else if j = 5 then (3/100 : ℚ) else if j = 6 then (0 : ℚ) else (3/100 : ℚ))
  else if i = 3 then (if j = 0 then (10/100 : ℚ) else if j = 1 then (0 : ℚ) else if j = 2 then (12/100 : ℚ) else if j = 3 then (60/100 : ℚ) else if j = 4 then (0 : ℚ) else if j = 5 then (10/100 : ℚ) else if j = 6 then (8/100 : ℚ) else (0 : ℚ))
  else if i = 4 then (if j = 0 then (0 : ℚ) else if j = 1 then (0 : ℚ) else if j = 2 then (0 : ℚ) else if j = 3 then (0 : ℚ) else if j = 4 then (68/100 : ℚ) else if j = 5 then (0 : ℚ) else if j = 6 then (0 : ℚ) else (0 : ℚ))
  else if i = 5 then (if j = 0 then (0 : ℚ) else if j = 1 then (0 : ℚ) else if j = 2 then (0 : ℚ) else if j = 3 then (0 : ℚ) else if j = 4 then (0 : ℚ) else if j = 5 then (55/100 : ℚ) else if j = 6 then (0 : ℚ) else (0 : ℚ))
  else if i = 6 then (if j = 0 then (0 : ℚ) else if j = 1 then (0 : ℚ) else if j = 2 then (0 : ℚ) else if j = 3 then (0 : ℚ) else if j = 4 then (0 : ℚ) else if j = 5 then (0 : ℚ) else if j = 6 then (62/100 : ℚ) else (0 : ℚ))
  else (if j = 0 then (15/100 : ℚ) else if j = 1 then (0 : ℚ) else if j = 2 then (12/100 : ℚ) else if j = 3 then (0 : ℚ) else if j = 4 then (8/100 : ℚ) else if j = 5 then (0 : ℚ) else if j = 6 then (7/100 : ℚ) else (58/100 : ℚ))

/-- `lit0` after the (0,1) symmetry step: cell (1,0) becomes `0.12 * 0.6`. -/
def lit1 (i j : Fin 8) : ℚ :=
  if i = 0 then (if j = 0 then (70/100 : ℚ) else if j = 1 then (12/100 : ℚ) else if j = 2 then (3/100 : ℚ) else if j = 3 then (0 : ℚ) else if j = 4 then (8/100 : ℚ) else if j = 5 then (0 : ℚ) else if j = 6 then (7/100 : ℚ) else (0 : ℚ))
  else if i = 1 then (if j = 0 then (72/1000 : ℚ) else if j = 1 then (65/100 : ℚ) else if j = 2 then (0 : ℚ) else if j = 3 then (0 : ℚ) else if j = 4 then (0 : ℚ) else if j = 5 then (0 : ℚ) else if j = 6 then (0 : ℚ) else (0 : ℚ))
  else if i = 2 then (if j = 0 then (0 : ℚ) else if j = 1 then (4/100 : ℚ) else if j = 2 then (75/100 : ℚ) else if j = 3 then (15/100 : ℚ) else if j = 4 then (0 : ℚ) else if j = 5 then (3/100 : ℚ) else if j = 6 then (0 : ℚ) else (3/100 : ℚ))
  else if i = 3 then (if j = 0 then (10/100 : ℚ) else if j = 1 then (0 : ℚ) else if j = 2 then (12/100 : ℚ) else if j = 3 then (60/100 : ℚ) else if j = 4 then (0 : ℚ) else if j = 5 then (10/100 : ℚ) else if j = 6 then (8/100 : ℚ) else (0 : ℚ))
  else if i = 4 then (if j = 0 then (0 : ℚ) else if j = 1 then (0 : ℚ) else if j = 2 then (0 : ℚ) else if j = 3 then (0 : ℚ) else if j = 4 then (68/100 : ℚ) else if j = 5 then (0 : ℚ) else if j = 6 then (0 : ℚ) else (0 : ℚ))
  else if i = 5 then (if j = 0 then (0 : ℚ) else if j = 1 then (0 : ℚ) else if j = 2 then (0 : ℚ) else if j = 3 then (0 : ℚ) else if j = 4 then (0 : ℚ) else if j = 5 then (55/100 : ℚ) else if j = 6 then (0 : ℚ) else (0 : ℚ))
  else if i = 6 then (if j = 0 then (0 : ℚ) else if j = 1 then (0 : ℚ) else if j = 2 then (0 : ℚ) else if j = 3 then (0 : ℚ) else if j = 4 then (0 : ℚ) else if j = 5 then (0 : ℚ) else if j = 6 then (62/100 : ℚ) else (0 : ℚ))
  else (if j = 0 then (15/100 : ℚ) else if j = 1 then (0 : ℚ) else if j = 2 then (12/100 : ℚ) else if j = 3 then (0 : ℚ) else if j = 4 then (8/100 : ℚ) else if j = 5 then (0 : ℚ) else if j = 6 then (7/100 : ℚ) else (58/100 : ℚ))

/-- Explicit value table for `build_fundamental_matrix` (after all four
symmetry steps): cell (0,7) becomes `0.15 * 0.3`. -/
def build_lit (i j : Fin 8) : ℚ :=
  if i = 0 then (if j = 0 then (70/100 : ℚ) else if j = 1 then (12/100 : ℚ) else if j = 2 then (3/100 : ℚ) else if j = 3 then (0 : ℚ) else if j = 4 then (8/100 : ℚ) else if j = 5 then (0 : ℚ) else if j = 6 then (7/100 : ℚ) else (45/1000 : ℚ))
  else if i = 1 then (if j = 0 then (72/1000 : ℚ) else if j = 1 then (65/100 : ℚ) else if j = 2 then (0 : ℚ) else if j = 3 then (0 : ℚ) else if j = 4 then (0 : ℚ) else if j = 5 then (0 : ℚ) else if j = 6 then (0 : ℚ) else (0 : ℚ))
  else if i = 2 then (if j = 0 then (0 : ℚ) else if j = 1 then (4/100 : ℚ) else if j = 2 then (75/100 : ℚ) else if j = 3 then (15/100 : ℚ) else if j = 4 then (0 : ℚ) else if j = 5 then (3/100 : ℚ) else if j = 6 then (0 : ℚ) else (3/100 : ℚ))
  else if i = 3 then (if j = 0 then (10/100 : ℚ) else if j = 1 then (0 : ℚ) else if j = 2 then (12/100 : ℚ) else if j = 3 then (60/100 : ℚ) else if j = 4 then (0 : ℚ) else if j = 5 then (10/100 : ℚ) else if j = 6 then (8/100 : ℚ) else (0 : ℚ))
  else if i = 4 then (if j = 0 then (0 : ℚ) else if j = 1 then (0 : ℚ) else if j = 2 then (0 : ℚ) else if j = 3 then (0 : ℚ) else if j = 4 then (68/100 : ℚ) else if j = 5 then (0 : ℚ) else if j = 6 then (0 : ℚ) else (0 : ℚ))
  else if i = 5 then (if j = 0 then (0 : ℚ) else if j = 1 then (0 : ℚ) else if j = 2 then (0 : ℚ) else if j = 3 then (0 : ℚ) else if j = 4 then (0 : ℚ) else if j = 5 then (55/100 : ℚ) else if j = 6 then (0 : ℚ) else (0 : ℚ))
  else if i = 6 then (if j = 0 then (0 : ℚ) else if j = 1 then (0 : ℚ) else if j = 2 then (0 : ℚ) else if j = 3 then (0 : ℚ) else if j = 4 then (0 : ℚ) else if j = 5 then (0 : ℚ) else if j = 6 then (62/100 : ℚ) else (0 : ℚ))
  else (if j = 0 then (15/100 : ℚ) else if j = 1 then (0 : ℚ) else if j = 2 then (12/100 : ℚ) else if j = 3 then (0 : ℚ) else if j = 4 then (8/100 : ℚ) else if j = 5 then (0 : ℚ) else if j = 6 then (7/100 : ℚ) else (58/100 : ℚ))

/-- Explicit value table for `fundamental_matrix` (rows 0, 1, 4, 5, 6 of
`build_lit` divided by their sums 209/200, 361/500, 68/100, 55/100, 62/100;
rows 2, 3, 7 already sum to 1); validated by `fm_eq` below. -/
def fm_lit (i j : Fin 8) : ℚ :=
  if i = 0 then (if j = 0 then (140/209 : ℚ) else if j = 1 then (24/209 : ℚ) else if j = 2 then (6/209 : ℚ) else if j = 3 then (0 : ℚ) else if j = 4 then (16/209 : ℚ) else if j = 5 then (0 : ℚ) else if j = 6 then (14/209 : ℚ) else (9/209 : ℚ))
  else if i = 1 then (if j = 0 then (36/361 : ℚ) else if j = 1 then (325/361 : ℚ) else if j = 2 then (0 : ℚ) else if j = 3 then (0 : ℚ) else if j = 4 then (0 : ℚ) else if j = 5 then (0 : ℚ) else if j = 6 then (0 : ℚ) else (0 : ℚ))
  else if i = 2 then (if j = 0 then (0 : ℚ) else if j = 1 then (1/25 : ℚ) else if j = 2 then (3/4 : ℚ) else if j = 3 then (3/20 : ℚ) else if j = 4 then (0 : ℚ) else if j = 5 then (3/100 : ℚ) else if j = 6 then (0 : ℚ) else (3/100 : ℚ))
  else if i = 3 then (if j = 0 then (1/10 : ℚ) else if j = 1 then (0 : ℚ) else if j = 2 then (3/25 : ℚ) else if j = 3 then (3/5 : ℚ) else if j = 4 then (0 : ℚ) else if j = 5 then (1/10 : ℚ) else if j = 6 then (2/25 : ℚ) else (0 : ℚ))
  else if i = 4 then (if j = 0 then (0 : ℚ) else if j = 1 then (0 : ℚ) else if j = 2 then (0 : ℚ) else if j = 3 then (0 : ℚ) else if j = 4 then (1 : ℚ) else if j = 5 then (0 : ℚ) else if j = 6 then (0 : ℚ) else (0 : ℚ))
  else if i = 5 then (if j = 0 then (0 : ℚ) else if j = 1 then (0 : ℚ) else if j = 2 then (0 : ℚ) else if j = 3 then (0 : ℚ) else if j = 4 then (0 : ℚ) else if j = 5 then (1 : ℚ) else if j = 6 then (0 : ℚ) else (0 : ℚ))
  else if i = 6 then (if j = 0 then (0 : ℚ) else if j = 1 then (0 : ℚ) else if j = 2 then (0 : ℚ) else if j = 3 then (0 : ℚ) else if j = 4 then (0 : ℚ) else if j = 5 then (0 : ℚ) else if j = 6 then (1 : ℚ) else (0 : ℚ))
  else (if j = 0 then (3/20 : ℚ) else if j = 1 then (0 : ℚ) else if j = 2 then (3/25 : ℚ) else if j = 3 then (0 : ℚ) else if j = 4 then (2/25 : ℚ) else if j = 5 then (0 : ℚ) else if j = 6 then (7/100 : ℚ) else (29/50 : ℚ))

/-- Row-stochasticity: the matrix invariant assumed by
`IndirectInfluenceCalculator` (non-negative entries, each row summing to 1). -/
def row_stochastic (M : MatQ) : Prop :=
  (∀ i j, 0 ≤ M i j) ∧ ∀ i, (∑ j, M i j) = 1

/-- The decayed flow accumulated by the loop of
`IndirectInfluenceCalculator.compute_total_influence` (indirect.py lines
86-99): orders 1..max_order, an order contributing only when it is in the
power-matrix cache (orders 1..5), weighted by `0.7^(order-1)` for orders
above 1. -/
def influence_total_flow (M : MatQ) (source_idx target_idx : Fin 8) (max_order : ℕ) : ℚ :=
  (((List.range' 1 max_order).filter (fun k => k ≤ 5)).map
    (fun k => (if 1 < k then ((7:ℚ)/10)^(k-1) else 1) * (M ^ k) source_idx target_idx)).sum

/-- The normalization constant `max_possible` of `compute_total_influence`
(indirect.py line 102): `sum(0.7 ** (k - 1) for k in range(1, max_order + 1))`. -/
def influence_max_possible (max_order : ℕ) : ℚ :=
  ((List.range' 1 max_order).map (fun k => ((7:ℚ)/10)^(k-1))).sum

/-- `IndirectInfluenceCalculator.compute_total_influence` (indirect.py lines
60-111), the `total_influence` field of the returned dictionary. -/
def compute_total_influence (M : MatQ) (source_idx target_idx : Fin 8) (max_order : ℕ) : ℚ :=
  if 0 < influence_max_possible max_order then
    influence_total_flow M source_idx target_idx max_order / influence_max_possible max_order
  else 0

/-- Arithmetic mean of a list (`np.mean`); 0 for the empty list because in Lean
division by the length 0 yields 0 (the callers below all guard the empty
case themselves, as the Python does). -/
def list_mean (l : List ℚ) : ℚ := l.sum / l.length

/-- Population variance of a list, `mean((x - mean)^2)`, the square of
`np.std`. -/
def list_var (l : List ℚ) : ℚ := ((l.map (fun x => (x - list_mean l)^2)).sum) / l.length

/-- `np.std`: square root of the population variance. -/
noncomputable def list_std (l : List ℚ) : ℝ := Real.sqrt ((list_var l : ℚ) : ℝ)

/-- `TensionFieldCalculator._compute_structural_tension` (tension.py lines
130-144): coefficient of variation of the supplied intensities, clipped to 1;
0 for an empty mapping or zero mean.  The embedding takes the dictionary's
value list. -/
noncomputable def compute_structural_tension (states : List ℚ) : ℝ :=
  if states = [] then 0
  else if list_mean states = 0 then 0
  else min 1 (list_std states / ((list_mean states : ℚ) : ℝ))

/-- The per-element total outflow list `1 - matrix[i,i]` of
`_compute_dynamic_tension` (tension.py lines 151-154). -/
def outflow_imbalance (M : MatQ) : List ℚ := (List.finRange 8).map (fun i => 1 - M i i)

/-- `TensionFieldCalculator._compute_dynamic_tension` (tension.py lines
146-162): std of the outflows divided by the assumed maximum spread 0.5,
clipped to 1 (the Python guard `max_possible_std > 0` is true for the
constant 0.5). -/
noncomputable def compute_dynamic_tension (M : MatQ) : ℝ :=
  if (outflow_imbalance M).length < 2 then 0
  else min 1 (list_std (outflow_imbalance M) / (1/2))

/-- `TensionFieldCalculator._compute_potential_tension` (tension.py lines
164-174): `1 - mean`, clipped to 1; 0 for an empty mapping. -/
def compute_potential_tension (states : List ℚ) : ℚ :=
  if states = [] then 0 else min 1 (1 - list_mean states)

/-- The asymmetry contributions collected by `_compute_conflict_tension`
(tension.py lines 182-192): over ordered pairs `(i,j)`, `i ≠ j`, with both
flows above 0.01, the value `1 - min/max`. -/
def conflict_contributions (M : MatQ) : List ℚ :=
  (List.finRange 8).flatMap (fun i => (List.finRange 8).filterMap (fun j =>
    if i ≠ j ∧ 1/100 < M i j ∧ 1/100 < M j i then
      some (1 - (min (M i j) (M j i)) / (max (M i j) (M j i)))
    else none))

/-- `TensionFieldCalculator._compute_conflict_tension` (tension.py lines
176-198): average contribution, clipped to 1; 0 when no pair qualifies. -/
def compute_conflict_tension (M : MatQ) : ℚ :=
  let l := conflict_contributions M
  if l.length = 0 then 0 else min 1 (l.sum / l.length)

/-- The numeric content of the dictionary returned by
`TensionFieldCalculator.compute_tension_field`: the four component values and
the weighted total. -/
structure TensionField where
  structural : ℝ
  dynamic : ℝ
  potential : ℝ
  conflict : ℝ
  total : ℝ

/-- `TensionFieldCalculator.compute_tension_field` (tension.py lines 71-128):
the four components and the weighted aggregate
`0.3*structural + 0.2*dynamic + 0.25*potential + 0.25*conflict`. -/
noncomputable def compute_tension_field (M : MatQ) (states : List ℚ) : TensionField :=
  let s := compute_structural_tension states
  let d := compute_dynamic_tension M
  let p := ((compute_potential_tension states : ℚ) : ℝ)
  let c := ((compute_conflict_tension M : ℚ) : ℝ)
  { structural := s, dynamic := d, potential := p, conflict := c,
    total := 3/10 * s + 1/5 * d + 1/4 * p + 1/4 * c }

/-- `TensionFieldCalculator._classify_tension_level` (tension.py lines 200-211)
with the constructor-set thresholds low = 0.2, medium = 0.5, high = 0.7,
critical = 0.9. -/
noncomputable def classify_tension_level (value : ℝ) : String :=
  if value < 1/5 then "极低"
  else if value < 1/2 then "低"
  else if value < 7/10 then "中"
  else if value < 9/10 then "高"
  else "临界"

/-- The error category the specification assigns to caller-supplied inputs
outside their domain. -/
inductive InputDomainError where
  | out_of_range
  | missing_element

/-- `TensionFieldCalculator.compute_tension_field` presented under the fallible
signature the specification prescribes.  The Python body performs no validation
of the element-state mapping (absent elements simply do not contribute), so the
embedding always returns `ok`. -/
noncomputable def compute_tension_field_checked (M : MatQ) (states : List ℚ) :
    Except InputDomainError TensionField :=
  Except.ok (compute_tension_field M states)

/-- The S-shaped suppression factor of `DataSource.compute_primal_excitation`
(data_source.py line 141): `1 / (1 + exp(-k*(s*p - 1)))` with the default
constants `pressure_sensitivity s = 0.80` and `sigmoid_steepness k = 10.0`. -/
noncomputable def suppression_term (p : ℝ) : ℝ :=
  1 / (1 + Real.exp (-(10 * ((4/5) * p - 1))))

/-- The bounded adaptation gain of `compute_primal_excitation` (data_source.py
lines 144-147), with the default constants `adaptive_capacity a = 0.69` and
`resilience_factor r = 1.89`: below pressure 0.7 the gain is capped at 0.3,
above it is tapered by `1 - (p - 0.7)/0.3`. -/
noncomputable def adapt_gain_term (p : ℝ) : ℝ :=
  if p < 7/10 then min (3/10) ((69/100) * (1 - Real.exp (-((189/100) * p))))
  else ((69/100) * (1 - Real.exp (-((189/100) * p)))) * (1 - (p - 7/10) / (3/10))

/-- `DataSource.compute_primal_excitation` (data_source.py lines 131-153) with
the default configuration (`base_excitation b = 0.85`): the excitation
`b * (1 - 0.8*suppression) * (1 + max(0, adapt_gain))` clipped into
`[0.05, 1.2]` by `max(0.05, min(1.2, excitation))`. -/
noncomputable def compute_primal_excitation (p : ℝ) : ℝ :=
  max (1/20) (min (6/5)
    ((17/20) * (1 - (4/5) * suppression_term p) * (1 + max 0 (adapt_gain_term p))))

/-- `DataSource.compute_primal_excitation` presented under the fallible
signature the specification prescribes for the evaluation surface.  The Python
body contains no validation and no raise statement, so the embedding always
returns `ok` of the computed value. -/
noncomputable def compute_primal_excitation_checked (p : ℝ) :
    Except InputDomainError ℝ :=
  Except.ok (compute_primal_excitation p)

/-- The survival keyword list of
`TargetCalculator.compute_elimination_justification` (target.py line 139). -/
def survival_keywords : List String := ["survival", "defense", "threat", "protect", "survive"]

/-- Character-list prefix test (`needle` begins `hay`), the primitive under
Python's substring operator. -/
def starts_with_chars : List Char → List Char → Bool
  | [], _ => true
  | _ :: _, [] => false
  | a :: as, b :: bs => a = b && starts_with_chars as bs

/-- Contiguous-substring test on character lists: Python's `needle in hay`. -/
def contains_sublist (needle : List Char) (hay : List Char) : Bool :=
  starts_with_chars needle hay ||
    match hay with
    | [] => false
    | _ :: t => contains_sublist needle t

/-- The keyword test of `compute_elimination_justification` (target.py lines
139-140): `any(kw in reason.lower() for kw in survival_keywords)`.  Python's
`str.lower` acts per character on this ASCII data, embedded as
`Char.toLower`. -/
def reason_has_survival_keyword (reason : String) : Bool :=
  survival_keywords.any (fun kw => contains_sublist kw.toList (reason.toList.map Char.toLower))

/-- The numeric content of the `EliminationJustification` dataclass returned by
`TargetCalculator.compute_elimination_justification` (target.py lines 33-39 and
155-166): the decision, the score, the threshold and the itemized
components. -/
structure EliminationJustificationResult where
  justified : Bool
  score : ℚ
  threshold : ℚ
  base : ℚ
  expected_gain : ℚ
  gain_contribution : ℚ
  collective_bonus : ℚ

/-- `TargetCalculator.compute_elimination_justification` (target.py lines
115-166) with the default configuration (base_justification 0.8,
survival_multiplier 2.0, primal_gain_factor 0.3, collective_bonus 0.4,
threshold 0.6): the base is doubled when the reason contains a survival
keyword; `expected_gain = 0.5*agent_primal + 0.3*target_primal`; the collective
bonus is 0.4 for a collective benefit plus 0.2 more when the agent type is the
string `Collective`; `justified` iff the total strictly exceeds 0.6. -/
def compute_elimination_justification (agent_type : String) (reason : String)
    (agent_primal target_primal : ℚ) (has_collective_benefit : Bool) :
    EliminationJustificationResult :=
  let base_score := if reason_has_survival_keyword reason then (8/10) * 2 else 8/10
  let expected_gain := agent_primal * (1/2) + target_primal * (3/10)
  let gain_contribution := expected_gain * (3/10)
  let collective_bonus :=
    (if has_collective_benefit then (4/10 : ℚ) else 0) +
    (if agent_type = "Collective" then (4/10 : ℚ) * (1/2) else 0)
  let total_score := base_score + gain_contribution + collective_bonus
  { justified := decide (6/10 < total_score), score := total_score, threshold := 6/10,
    base := base_score, expected_gain := expected_gain,
    gain_contribution := gain_contribution, collective_bonus := collective_bonus }

/-- The field state consumed by `ChaosGuidanceField` (chaos_field.py lines
24-47), four scalars in `[0,1]`. -/
structure FieldState where
  cohesion : ℚ
  fragmentation : ℚ
  primal_flow : ℚ
  target_clarity : ℚ

/-- `FieldFragmentationLevel` (chaos_field.py lines 16-21). -/
inductive FieldFragmentationLevel where
  | INTACT
  | CRACKING
  | FRAGMENTING
  | DISSOLVING
deriving DecidableEq

/-- `FieldState.fragmentation_level` (chaos_field.py lines 32-42). -/
def fragmentation_level (fs : FieldState) : FieldFragmentationLevel :=
  if fs.fragmentation < 1/5 then .INTACT
  else if fs.fragmentation < 1/2 then .CRACKING
  else if fs.fragmentation < 4/5 then .FRAGMENTING
  else .DISSOLVING

/-- `FieldState.is_maintainable` (chaos_field.py lines 44-47):
`cohesion > 0.3 and primal_flow > 0.2`. -/
def is_maintainable (fs : FieldState) : Prop :=
  3/10 < fs.cohesion ∧ 1/5 < fs.primal_flow

instance (fs : FieldState) : Decidable (is_maintainable fs) := by
  unfold is_maintainable
  infer_instance

/-- `ChaosType` (chaos_field.py lines 8-13). -/
inductive ChaosType where
  | CREATIVE
  | DESTRUCTIVE
  | TRANSITIONAL
  | PRIMAL
deriving DecidableEq

/-- The assessment produced by `ChaosGuidanceField.assess_chaos`
(chaos_field.py lines 50-56). -/
structure ChaosAssessment where
  chaos_type : ChaosType
  field_state : FieldState
  guidance_urgency : ℚ
  primal_residue : ℚ

/-- `ChaosGuidanceField._calculate_primal_residue` (chaos_field.py lines
182-195): `excitation * 0.3` when the flow is below 0.1, otherwise
`excitation * flow`, capped at 1. -/
def calculate_primal_residue (primal_excitation primal_flow : ℚ) : ℚ :=
  if primal_flow < 1/10 then min 1 (primal_excitation * (3/10))
  else min 1 (primal_excitation * primal_flow)

/-- `ChaosGuidanceField._determine_chaos_type` (chaos_field.py lines 197-227).
The target states enter only through their `active` flags. -/
def determine_chaos_type (fs : FieldState) (primal_residue : ℚ)
    (target_active_flags : List Bool) : ChaosType :=
  if ¬ is_maintainable fs then .PRIMAL
  else if fs.target_clarity < 1/5 ∧ ¬ (target_active_flags.any id = true) then
    (if 1/2 < primal_residue then .TRANSITIONAL else .DESTRUCTIVE)
  else if 3/5 < fs.fragmentation then
    (if 2/5 < primal_residue then .TRANSITIONAL else .DESTRUCTIVE)
  else if 3/5 < primal_residue then .CREATIVE
  else .TRANSITIONAL

/-- The crisis-type contributions of `_calculate_guidance_urgency`
(chaos_field.py lines 246-251); the dictionary covers every constructor, so the
Python default 0.3 is unreachable. -/
def chaos_type_contribution : ChaosType → ℚ
  | .PRIMAL => 8/10
  | .DESTRUCTIVE => 6/10
  | .TRANSITIONAL => 4/10
  | .CREATIVE => 2/10

/-- `ChaosGuidanceField._calculate_guidance_urgency` (chaos_field.py lines
229-259): additive contributions capped at 1. -/
def calculate_guidance_urgency (fs : FieldState) (ct : ChaosType)
    (primal_residue : ℚ) : ℚ :=
  min 1 ((if ¬ is_maintainable fs then (6:ℚ)/10 else 0) +
    (if 7/10 < fs.fragmentation then (3:ℚ)/10 else 0) +
    (if fs.target_clarity < 1/5 then (1:ℚ)/5 else 0) +
    chaos_type_contribution ct + (1 - primal_residue) * (2/5))

/-- `ChaosGuidanceField.assess_chaos` (chaos_field.py lines 152-180). -/
def assess_chaos (fs : FieldState) (primal_excitation : ℚ)
    (target_active_flags : List Bool) : ChaosAssessment :=
  let residue := calculate_primal_residue primal_excitation fs.primal_flow
  let ct := determine_chaos_type fs residue target_active_flags
  { chaos_type := ct, field_state := fs,
    guidance_urgency := calculate_guidance_urgency fs ct residue,
    primal_residue := residue }

/-- `ChaosAssessment.requires_kunzhuan` (chaos_field.py lines 58-65). -/
def requires_kunzhuan (a : ChaosAssessment) : Prop :=
  fragmentation_level a.field_state = .DISSOLVING ∨
    7/10 < a.guidance_urgency ∨ a.chaos_type = .PRIMAL

instance (a : ChaosAssessment) : Decidable (requires_kunzhuan a) := by
  unfold requires_kunzhuan
  infer_instance

/-- The `min_conditions` threshold, from `DataSource._default_config`
(`kunzhuan.min_conditions = 3`, data_source.py line 40), read by
`ChaosGuidanceField.__init__` (chaos_field.py line 93). -/
def kunzhuan_min_conditions : ℕ := 3

/-- The fragmentation trigger threshold of `ChaosGuidanceField.__init__`
(chaos_field.py line 92): `immerse_threshold * 10` with
`immerse_threshold = 0.05` from the default config, i.e. `0.5`. -/
def kunzhuan_fragmentation_threshold : ℚ := (5/100) * 10

/-- The number of breached thresholds counted by
`ChaosGuidanceField.check_kunzhuan_required` (chaos_field.py lines 264-294):
cohesion < 0.3, target_clarity < 0.2, primal_flow < 0.2, fragmentation > the
configured 0.5. -/
def kunzhuan_trigger_count (fs : FieldState) : ℕ :=
  (if fs.cohesion < 3/10 then 1 else 0) +
  (if fs.target_clarity < 1/5 then 1 else 0) +
  (if fs.primal_flow < 1/5 then 1 else 0) +
  (if kunzhuan_fragmentation_threshold < fs.fragmentation then 1 else 0)

/-- The `requires_kunzhuan` decision of `check_kunzhuan_required`
(chaos_field.py line 296): trigger count at least `min_conditions`, or the
assessment itself flags the transition. -/
def check_kunzhuan_required (a : ChaosAssessment) : Prop :=
  kunzhuan_min_conditions ≤ kunzhuan_trigger_count a.field_state ∨ requires_kunzhuan a

instance (a : ChaosAssessment) : Decidable (check_kunzhuan_required a) := by
  unfold check_kunzhuan_required
  infer_instance

/-- The four recovery strategies of `_initialize_kunzhuan_methods`
(chaos_field.py lines 123-150), identified by their method ids. -/
inductive KunzhuanMethod where
  | primal_realignment
  | emergent_guidance
  | radical_simplification
  | complete_restart
deriving DecidableEq

/-- The applicability predicates of the method library (chaos_field.py lines
128, 135, 141, 146). -/
def method_applicable (a : ChaosAssessment) : KunzhuanMethod → Bool
  | .primal_realignment => decide (3/10 < a.primal_residue)
  | .emergent_guidance => decide (a.chaos_type = .CREATIVE)
  | .radical_simplification => decide (7/10 < a.field_state.fragmentation)
  | .complete_restart => decide (a.primal_residue < 1/10)

/-- The insertion order of the method dictionary built by
`_initialize_kunzhuan_methods`, which is the iteration order of
`_select_kunzhuan_method`. -/
def kunzhuan_method_order : List KunzhuanMethod :=
  [.primal_realignment, .emergent_guidance, .radical_simplification, .complete_restart]

/-- `ChaosGuidanceField._select_kunzhuan_method` (chaos_field.py lines
349-376): collect the applicable methods in dictionary order; if none,
default to `primal_realignment`; if `guidance_urgency > 0.8`, return the first
applicable method among `radical_simplification` / `complete_restart` when one
exists; otherwise the first applicable method. -/
def select_kunzhuan_method (a : ChaosAssessment) : KunzhuanMethod :=
  match kunzhuan_method_order.filter (method_applicable a) with
  | [] => .primal_realignment
  | m :: rest =>
    if 4/5 < a.guidance_urgency then
      (((m :: rest).find? (fun x =>
        decide (x = KunzhuanMethod.radical_simplification) ||
        decide (x = KunzhuanMethod.complete_restart))).getD m)
    else m

/-- The `RegimeMonitor.evaluate` surface of the specification, composed from
the cited code: `assess_chaos`, then `check_kunzhuan_required`
(chaos_field.py lines 261-306), and on a positive decision the strategy
selected by `_select_kunzhuan_method` for `perform_kunzhuan` (lines 308-317);
`None` otherwise. -/
def regime_evaluate (fs : FieldState) (primal_excitation : ℚ)
    (target_active_flags : List Bool) : Option KunzhuanMethod :=
  let a := assess_chaos fs primal_excitation target_active_flags
  if check_kunzhuan_required a then some (select_kunzhuan_method a) else none

/-- The field state named by the regime-monitor scenario of the specification:
cohesion 0.1, fragmentation 0.9, primal_flow 0.1, target_clarity 0.1. -/
def crisis_field_state : FieldState :=
  { cohesion := 1/10, fragmentation := 9/10, primal_flow := 1/10, target_clarity := 1/10 }

theorem fv0 : ((0 : Fin 8) : ℕ) = 0 := rfl

theorem fv1 : ((1 : Fin 8) : ℕ) = 1 := rfl

theorem fv2 : ((2 : Fin 8) : ℕ) = 2 := rfl

theorem fv3 : ((3 : Fin 8) : ℕ) = 3 := rfl

theorem fv4 : ((4 : Fin 8) : ℕ) = 4 := rfl

theorem fv5 : ((5 : Fin 8) : ℕ) = 5 := rfl

theorem fv6 : ((6 : Fin 8) : ℕ) = 6 := rfl

theorem fv7 : ((7 : Fin 8) : ℕ) = 7 := rfl

set_option maxHeartbeats 3200000 in
theorem base_eq : base_matrix = lit0 := by
  funext i j
  fin_cases i <;> fin_cases j <;>
    simp [base_matrix, self_retention, outflow_patterns, lit0,
      Fin.ext_iff, fv0, fv1, fv2, fv3, fv4, fv5, fv6, fv7]

set_option maxHeartbeats 3200000 in
theorem sym1_eq : apply_one_symmetry lit0 ((0, 1), 6/10) = lit1 := by
  have hg : (0:ℚ) < lit0 0 1 := by
    norm_num [lit0, Fin.ext_iff, fv0, fv1, fv2, fv3, fv4, fv5, fv6, fv7]
  funext i j
  simp only [apply_one_symmetry]
  rw [if_pos hg]
  fin_cases i <;> fin_cases j <;>
    simp [lit0, lit1, Fin.ext_iff, fv0, fv1, fv2, fv3, fv4, fv5, fv6, fv7] <;> norm_num

set_option maxHeartbeats 3200000 in
theorem sym2_eq : apply_one_symmetry lit1 ((2, 3), 8/10) = lit1 := by
  have hg : (0:ℚ) < lit1 2 3 := by
    norm_num [lit1, Fin.ext_iff, fv0, fv1, fv2, fv3, fv4, fv5, fv6, fv7]
  funext i j
  simp only [apply_one_symmetry]
  rw [if_pos hg]
  fin_cases i <;> fin_cases j <;>
    simp [lit1, Fin.ext_iff, fv0, fv1, fv2, fv3, fv4, fv5, fv6, fv7] <;> norm_num

theorem sym3_eq : apply_one_symmetry lit1 ((5, 6), 7/10) = lit1 := by
  have hg : ¬ (0:ℚ) < lit1 5 6 := by
    norm_num [lit1, Fin.ext_iff, fv0, fv1, fv2, fv3, fv4, fv5, fv6, fv7]
  simp only [apply_one_symmetry]
  rw [if_neg hg]

set_option maxHeartbeats 3200000 in
theorem sym4_eq : apply_one_symmetry lit1 ((7, 0), 3/10) = build_lit := by
  have hg : (0:ℚ) < lit1 7 0 := by
    norm_num [lit1, Fin.ext_iff, fv0, fv1, fv2, fv3, fv4, fv5, fv6, fv7]
  funext i j
  simp only [apply_one_symmetry]
  rw [if_pos hg]
  fin_cases i <;> fin_cases j <;>
    simp [lit1, build_lit, Fin.ext_iff, fv0, fv1, fv2, fv3, fv4, fv5, fv6, fv7] <;> norm_num

theorem build_eq : build_fundamental_matrix = build_lit := by
  rw [build_fundamental_matrix, symmetry_factors]
  rw [List.foldl_cons, List.foldl_cons, List.foldl_cons, List.foldl_cons, List.foldl_nil]
  rw [base_eq, sym1_eq, sym2_eq, sym3_eq, sym4_eq]

theorem fix_diag_row_of_ge (r : Fin 8 → ℚ) (i : Fin 8) (h : ¬ r i < 1/2) :
    fix_diag_row r i = r := by
  rw [fix_diag_row, if_neg h]

theorem normalize_row_of_far (r : Fin 8 → ℚ) (s : ℚ) (hs : (∑ j, r j) = s)
    (h : 1/1000000 < |s - 1|) : normalize_row r = fun j => r j / s := by
  rw [normalize_row]
  simp only [hs]
  rw [if_pos h]

theorem normalize_row_of_near (r : Fin 8 → ℚ) (s : ℚ) (hs : (∑ j, r j) = s)
    (h : ¬ 1/1000000 < |s - 1|) : normalize_row r = r := by
  rw [normalize_row]
  simp only [hs]
  rw [if_neg h]

set_option maxHeartbeats 1600000 in
theorem clamp_build_lit : ∀ i : Fin 8, (fun j => max 0 (build_lit i j)) = build_lit i := by
  intro i
  funext j
  have h : 0 ≤ build_lit i j := by
    fin_cases i <;> fin_cases j <;>
      norm_num [build_lit, Fin.ext_iff, fv0, fv1, fv2, fv3, fv4, fv5, fv6, fv7]
  simp [max_eq_right h]

set_option maxHeartbeats 6400000 in
theorem fm_eq : fundamental_matrix = fm_lit := by
  rw [fundamental_matrix, build_eq]
  funext i j
  rw [show enforce_constraints build_lit i j =
        normalize_row (fix_diag_row (fun j => max 0 (build_lit i j)) i) j from rfl]
  rw [clamp_build_lit i]
  fin_cases i
  · rw [fix_diag_row_of_ge _ _ (by norm_num [build_lit, Fin.ext_iff, fv0])]
    rw [normalize_row_of_far _ (209/200)
      (by norm_num [Fin.sum_univ_eight, build_lit, Fin.ext_iff, fv0, fv1, fv2, fv3, fv4, fv5, fv6, fv7])
      (by norm_num [abs_of_nonneg])]
    fin_cases j <;> norm_num [build_lit, fm_lit, Fin.ext_iff, fv0, fv1, fv2, fv3, fv4, fv5, fv6, fv7]
  · rw [fix_diag_row_of_ge _ _ (by norm_num [build_lit, Fin.ext_iff, fv0, fv1])]
    rw [normalize_row_of_far _ (722/1000)
      (by norm_num [Fin.sum_univ_eight, build_lit, Fin.ext_iff, fv0, fv1, fv2, fv3, fv4, fv5, fv6, fv7])
      (by rw [abs_sub_comm]; norm_num [abs_of_nonneg])]
    fin_cases j <;> norm_num [build_lit, fm_lit, Fin.ext_iff, fv0, fv1, fv2, fv3, fv4, fv5, fv6, fv7]
  · rw [fix_diag_row_of_ge _ _ (by norm_num [build_lit, Fin.ext_iff, fv0, fv1, fv2])]
    rw [normalize_row_of_near _ 1
      (by norm_num [Fin.sum_univ_eight, build_lit, Fin.ext_iff, fv0, fv1, fv2, fv3, fv4, fv5, fv6, fv7])
      (by norm_num)]
    fin_cases j <;> norm_num [build_lit, fm_lit, Fin.ext_iff, fv0, fv1, fv2, fv3, fv4, fv5, fv6, fv7]
  · rw [fix_diag_row_of_ge _ _ (by norm_num [build_lit, Fin.ext_iff, fv0, fv1, fv2, fv3])]
    rw [normalize_row_of_near _ 1
      (by norm_num [Fin.sum_univ_eight, build_lit, Fin.ext_iff, fv0, fv1, fv2, fv3, fv4, fv5, fv6, fv7])
      (by norm_num)]
    fin_cases j <;> norm_num [build_lit, fm_lit, Fin.ext_iff, fv0, fv1, fv2, fv3, fv4, fv5, fv6, fv7]
  · rw [fix_diag_row_of_ge _ _ (by norm_num [build_lit, Fin.ext_iff, fv0, fv1, fv2, fv3, fv4])]
    rw [normalize_row_of_far _ (68/100)
      (by norm_num [Fin.sum_univ_eight, build_lit, Fin.ext_iff, fv0, fv1, fv2, fv3, fv4, fv5, fv6, fv7])
      (by rw [abs_sub_comm]; norm_num [abs_of_nonneg])]
    fin_cases j <;> norm_num [build_lit, fm_lit, Fin.ext_iff, fv0, fv1, fv2, fv3, fv4, fv5, fv6, fv7]
  · rw [fix_diag_row_of_ge _ _ (by norm_num [build_lit, Fin.ext_iff, fv0, fv1, fv2, fv3, fv4, fv5])]
    rw [normalize_row_of_far _ (55/100)
      (by norm_num [Fin.sum_univ_eight, build_lit, Fin.ext_iff, fv0, fv1, fv2, fv3, fv4, fv5, fv6, fv7])
      (by rw [abs_sub_comm]; norm_num [abs_of_nonneg])]
    fin_cases j <;> norm_num [build_lit, fm_lit, Fin.ext_iff, fv0, fv1, fv2, fv3, fv4, fv5, fv6, fv7]
  · rw [fix_diag_row_of_ge _ _ (by norm_num [build_lit, Fin.ext_iff, fv0, fv1, fv2, fv3, fv4, fv5, fv6])]
    rw [normalize_row_of_far _ (62/100)
      (by norm_num [Fin.sum_univ_eight, build_lit, Fin.ext_iff, fv0, fv1, fv2, fv3, fv4, fv5, fv6, fv7])
      (by rw [abs_sub_comm]; norm_num [abs_of_nonneg])]
    fin_cases j <;> norm_num [build_lit, fm_lit, Fin.ext_iff, fv0, fv1, fv2, fv3, fv4, fv5, fv6, fv7]
  · rw [fix_diag_row_of_ge _ _ (by norm_num [build_lit, Fin.ext_iff, fv0, fv1, fv2, fv3, fv4, fv5, fv6, fv7])]
    rw [normalize_row_of_near _ 1
      (by norm_num [Fin.sum_univ_eight, build_lit, Fin.ext_iff, fv0, fv1, fv2, fv3, fv4, fv5, fv6, fv7])
      (by norm_num)]
    fin_cases j <;> norm_num [build_lit, fm_lit, Fin.ext_iff, fv0, fv1, fv2, fv3, fv4, fv5, fv6, fv7]

set_option maxHeartbeats 1600000 in
theorem fm_lit_nonneg : ∀ i j : Fin 8, 0 ≤ fm_lit i j := by
  intro i j
  fin_cases i <;> fin_cases j <;>
    norm_num [fm_lit, Fin.ext_iff, fv0, fv1, fv2, fv3, fv4, fv5, fv6, fv7]

set_option maxHeartbeats 1600000 in
theorem fm_lit_rowsum : ∀ i : Fin 8, (∑ j, fm_lit i j) = 1 := by
  intro i
  fin_cases i <;>
    norm_num [Fin.sum_univ_eight, fm_lit, Fin.ext_iff, fv0, fv1, fv2, fv3, fv4, fv5, fv6, fv7]

set_option maxHeartbeats 1600000 in
theorem fm_lit_diag : ∀ i : Fin 8, 1/2 ≤ fm_lit i i := by
  intro i
  fin_cases i <;>
    norm_num [fm_lit, Fin.ext_iff, fv0, fv1, fv2, fv3, fv4, fv5, fv6, fv7]

theorem fundamental_matrix_stochastic : row_stochastic fundamental_matrix := by
  rw [row_stochastic, fm_eq]
  exact ⟨fm_lit_nonneg, fm_lit_rowsum⟩
/-- C2 (amended): on a row satisfying the invariants (non-negative entries,
row sum 1, diagonal at least 0.5), `set_flow(source, target, v)` with `v > 0`
and `target ≠ source` leaves every other row untouched, leaves the diagonal
unchanged (hence still at least 0.5), makes the row sum 1 again, and rescales
every off-diagonal entry of the row — including the cell just written — by the
common factor `(1 - diag) / ((1 - old + v) - diag)`; in particular reading the
cell back gives `v` times that factor, not `v` itself. -/
theorem C2_set_flow_rebalance_amended (M : MatQ) (s t : Fin 8) (v : ℚ)
    (ht : t ≠ s) (hnn : ∀ j, 0 ≤ M s j) (hrow : (∑ j, M s j) = 1)
    (hd : 1/2 ≤ M s s) (hv : 0 < v) :
    (∑ j, set_flow M s t v s j) = 1 ∧
    set_flow M s t v s s = M s s ∧
    1/2 ≤ set_flow M s t v s s ∧
    set_flow M s t v s t = v * ((1 - M s s) / ((1 - M s t + v) - M s s)) ∧
    (∀ j, j ≠ s → j ≠ t →
      set_flow M s t v s j = M s j * ((1 - M s s) / ((1 - M s t + v) - M s s))) ∧
    (∀ i, i ≠ s → ∀ j, set_flow M s t v i j = M i j) := by
  have hst : s ≠ t := Ne.symm ht
  have h1 : ∀ j, (if s = s ∧ j = t then v else M s j) = (if j = t then v else M s j) := by
    intro j
    simp
  have h2 : (if s = t then v else M s s) = M s s := if_neg hst
  have hsum1 : (∑ j, if j = t then v else M s j) = 1 - M s t + v := by
    have hu : (fun j => if j = t then v else M s j) = Function.update (M s) t v := by
      funext j
      rw [Function.update_apply]
    calc (∑ j, if j = t then v else M s j) = ∑ j, Function.update (M s) t v j := by rw [hu]
      _ = v + ∑ j in Finset.univ \ {t}, M s j := Finset.sum_update_of_mem (Finset.mem_univ t) (M s) v
      _ = v + ((∑ j, M s j) - M s t) := by
          rw [Finset.sdiff_singleton_eq_erase, Finset.sum_erase_eq_sub (Finset.mem_univ t)]
      _ = 1 - M s t + v := by rw [hrow]; ring
  have hpair : M s s + M s t ≤ 1 := by
    have hle : ∑ j in ({s, t} : Finset (Fin 8)), M s j ≤ ∑ j, M s j :=
      Finset.sum_le_sum_of_subset_of_nonneg (Finset.subset_univ _) (fun i _ _ => hnn i)
    rw [Finset.sum_pair hst, hrow] at hle
    exact hle
  have hTpos : (0:ℚ) < (1 - M s t + v) - M s s := by linarith
  have hsf : set_flow M s t v = fun i j =>
      if i = s ∧ j ≠ s then
        (if i = s ∧ j = t then v else M i j) * ((1 - M s s) / ((1 - M s t + v) - M s s))
      else (if i = s ∧ j = t then v else M i j) := by
    simp only [set_flow, eq_self_iff_true, true_and, h2, hsum1]
    rw [if_pos hTpos]
  rw [hsf]
  refine ⟨?_, ?_, ?_, ?_, ?_, ?_⟩
  · -- row sum is 1 again
    simp only [eq_self_iff_true, true_and]
    have expand : ∀ j : Fin 8, (if j ≠ s then
        (if j = t then v else M s j) * ((1 - M s s) / ((1 - M s t + v) - M s s))
        else (if j = t then v else M s j)) =
        (if j = s then M s s else (if j = t then v else M s j) * ((1 - M s s) / ((1 - M s t + v) - M s s))) := by
      intro j
      by_cases hj : j = s
      · subst hj
        simp [hst]
      · simp [hj]
    simp only [expand]
    have hu2 : (fun j => if j = s then M s s else
        (if j = t then v else M s j) * ((1 - M s s) / ((1 - M s t + v) - M s s))) =
        Function.update (fun j => (if j = t then v else M s j) * ((1 - M s s) / ((1 - M s t + v) - M s s))) s (M s s) := by
      funext j
      rw [Function.update_apply]
    calc (∑ j, if j = s then M s s else
          (if j = t then v else M s j) * ((1 - M s s) / ((1 - M s t + v) - M s s)))
        = ∑ j, Function.update (fun j => (if j = t then v else M s j) * ((1 - M s s) / ((1 - M s t + v) - M s s))) s (M s s) j := by rw [hu2]
      _ = M s s + ∑ j in Finset.univ \ {s},
            (if j = t then v else M s j) * ((1 - M s s) / ((1 - M s t + v) - M s s)) :=
          Finset.sum_update_of_mem (Finset.mem_univ s) _ (M s s)
      _ = M s s + ((∑ j, (if j = t then v else M s j) * ((1 - M s s) / ((1 - M s t + v) - M s s)))
            - (if (s:Fin 8) = t then v else M s s) * ((1 - M s s) / ((1 - M s t + v) - M s s))) := by
          rw [Finset.sdiff_singleton_eq_erase, Finset.sum_erase_eq_sub (Finset.mem_univ s)]
      _ = 1 := by
          have hT0 : (1 - M s t + v) - M s s ≠ 0 := ne_of_gt hTpos
          rw [h2, ← Finset.sum_mul, hsum1]
          field_simp
          ring
  · simp [hst]
  · simp only [eq_self_iff_true, true_and]
    have : ¬ ((s:Fin 8) ≠ s) := by simp
    rw [if_neg this, if_neg hst]
    exact hd
  · simp [ht, hst]
  · intro j hjs hjt
    simp [hjs, hjt, h1]
  · intro i his j
    simp [his]


set_option maxHeartbeats 1600000 in
/-- C2 (counterexample): on the freshly constructed matrix, setting cell (0,1)
to 0.2 and reading it back yields 69/434 ≈ 0.159, which is not 0.2 within the
matrix precision 1e-6 — `set_flow` rescales the entry it just wrote. -/
theorem C2_counterexample_readback :
    ¬ |get_flow (set_flow fundamental_matrix 0 1 (1/5)) 0 1 - 1/5| ≤ 1/1000000 := by
  have h : get_flow (set_flow fundamental_matrix 0 1 (1/5)) 0 1 = 69/434 := by
    rw [fm_eq]
    norm_num [get_flow, set_flow, Fin.sum_univ_eight, fm_lit, Fin.ext_iff,
      fv0, fv1, fv2, fv3, fv4, fv5, fv6, fv7]
  rw [h]
  rw [abs_of_nonpos (by norm_num)]
  norm_num

/-- C2 (witness): the amended statement instantiated on the constructed
default matrix at source 0, target 1, value 1/5. -/
theorem C2_set_flow_rebalance_witness :
    (∑ j, set_flow fundamental_matrix 0 1 (1/5) 0 j) = 1 ∧
    set_flow fundamental_matrix 0 1 (1/5) 0 0 = fundamental_matrix 0 0 ∧
    set_flow fundamental_matrix 0 1 (1/5) 0 1 =
      (1/5) * ((1 - fundamental_matrix 0 0) /
        ((1 - fundamental_matrix 0 1 + 1/5) - fundamental_matrix 0 0)) := by
  have h := C2_set_flow_rebalance_amended fundamental_matrix 0 1 (1/5)
    (by decide)
    (by rw [fm_eq]; exact fm_lit_nonneg 0)
    (by simp only [fm_eq]; exact fm_lit_rowsum 0)
    (by rw [fm_eq]; exact fm_lit_diag 0)
    (by norm_num)
  exact ⟨h.1, h.2.1, h.2.2.2.1⟩

/-- C3: every row of the matrix built from the default constant tables has
non-negative entries, sums to 1 within the precision 1e-6, and has diagonal
entry at least 0.5. -/
theorem C3_default_matrix_invariants : ∀ i : Fin 8,
    (∀ j, 0 ≤ fundamental_matrix i j) ∧
    |(∑ j, fundamental_matrix i j) - 1| ≤ 1/1000000 ∧
    1/2 ≤ fundamental_matrix i i := by
  intro i
  simp only [fm_eq]
  refine ⟨fun j => fm_lit_nonneg i j, ?_, fm_lit_diag i⟩
  rw [fm_lit_rowsum i]
  norm_num

theorem range'_map_sum (f : ℕ → ℚ) : ∀ n : ℕ,
    ((List.range' 1 n).map f).sum = ∑ k in Finset.Icc 1 n, f k := by
  intro n
  induction n with
  | zero => simp
  | succ m ih =>
    have hc : List.range' 1 (m + 1) = List.range' 1 m ++ [1 + m] := by
      have h := @List.range'_concat 1 1 m
      simpa using h
    rw [hc, List.map_append, List.sum_append, ih]
    rw [Finset.sum_Icc_succ_top (Nat.le_add_left 1 m)]
    simp [Nat.add_comm]

theorem filter_le_five (n : ℕ) (h5 : n ≤ 5) :
    (List.range' 1 n).filter (fun k => k ≤ 5) = List.range' 1 n := by
  apply List.filter_eq_self.mpr
  intro k hk
  have hm := List.mem_range'_1.mp hk
  exact decide_eq_true (by omega)

theorem total_flow_eq_sum (M : MatQ) (s t : Fin 8) (n : ℕ) (h5 : n ≤ 5) :
    influence_total_flow M s t n = ∑ k in Finset.Icc 1 n, ((7:ℚ)/10)^(k-1) * (M ^ k) s t := by
  rw [influence_total_flow, filter_le_five n h5, range'_map_sum]
  apply Finset.sum_congr rfl
  intro k hk
  have h1k : 1 ≤ k := (Finset.mem_Icc.mp hk).1
  by_cases hgt : 1 < k
  · rw [if_pos hgt]
  · have : k = 1 := by omega
    subst this
    norm_num

theorem stochastic_mul (A B : MatQ) (hA : row_stochastic A) (hB : row_stochastic B) :
    row_stochastic (A * B) := by
  constructor
  · intro i j
    rw [Matrix.mul_apply]
    exact Finset.sum_nonneg (fun k _ => mul_nonneg (hA.1 i k) (hB.1 k j))
  · intro i
    simp only [Matrix.mul_apply]
    rw [Finset.sum_comm]
    calc (∑ k, ∑ j, A i k * B k j) = ∑ k, A i k * ∑ j, B k j := by
          apply Finset.sum_congr rfl
          intro k _
          rw [Finset.mul_sum]
      _ = ∑ k, A i k := by
          apply Finset.sum_congr rfl
          intro k _
          rw [hB.2 k, mul_one]
      _ = 1 := hA.2 i

theorem stochastic_pow (M : MatQ) (hM : row_stochastic M) :
    ∀ k : ℕ, row_stochastic (M ^ k) := by
  intro k
  induction k with
  | zero =>
    rw [pow_zero]
    constructor
    · intro i j
      rw [Matrix.one_apply]
      split <;> norm_num
    · intro i
      simp [Matrix.one_apply]
  | succ m ih =>
    rw [pow_succ]
    exact stochastic_mul _ _ ih hM

theorem stochastic_entry_le_one (M : MatQ) (hM : row_stochastic M) (i j : Fin 8) :
    M i j ≤ 1 := by
  calc M i j ≤ ∑ k, M i k :=
        Finset.single_le_sum (fun k _ => hM.1 i k) (Finset.mem_univ j)
    _ = 1 := hM.2 i

theorem max_possible_eq (n : ℕ) :
    influence_max_possible n = ∑ k in Finset.Icc 1 n, ((7:ℚ)/10)^(k-1) := by
  rw [influence_max_possible, range'_map_sum]

theorem max_possible_pos (n : ℕ) (h1 : 1 ≤ n) : 0 < influence_max_possible n := by
  rw [max_possible_eq]
  apply Finset.sum_pos
  · intro k _
    positivity
  · exact ⟨1, Finset.mem_Icc.mpr ⟨le_refl 1, h1⟩⟩

/-- C7: for a row-stochastic matrix and any max_order in 1..5,
`compute_total_influence` equals the sum of matrix-power flows weighted by
`0.7^(k-1)` for k = 1..max_order, divided by the sum of those decay weights,
and the normalized value lies in [0,1]. -/
theorem C7_total_influence_normalized (M : MatQ) (s t : Fin 8) (n : ℕ)
    (hM : row_stochastic M) (h1 : 1 ≤ n) (h5 : n ≤ 5) :
    compute_total_influence M s t n =
      (∑ k in Finset.Icc 1 n, ((7:ℚ)/10)^(k-1) * (M ^ k) s t) /
      (∑ k in Finset.Icc 1 n, ((7:ℚ)/10)^(k-1)) ∧
    0 ≤ compute_total_influence M s t n ∧ compute_total_influence M s t n ≤ 1 := by
  have hpos := max_possible_pos n h1
  have heq : compute_total_influence M s t n =
      (∑ k in Finset.Icc 1 n, ((7:ℚ)/10)^(k-1) * (M ^ k) s t) /
      (∑ k in Finset.Icc 1 n, ((7:ℚ)/10)^(k-1)) := by
    rw [compute_total_influence, if_pos hpos, total_flow_eq_sum M s t n h5, max_possible_eq]
  refine ⟨heq, ?_, ?_⟩
  · rw [heq]
    apply div_nonneg
    · apply Finset.sum_nonneg
      intro k _
      exact mul_nonneg (by positivity) ((stochastic_pow M hM k).1 s t)
    · rw [← max_possible_eq]
      exact le_of_lt hpos
  · rw [heq]
    rw [div_le_one (by rw [← max_possible_eq]; exact hpos)]
    apply Finset.sum_le_sum
    intro k _
    calc ((7:ℚ)/10)^(k-1) * (M ^ k) s t ≤ ((7:ℚ)/10)^(k-1) * 1 := by
          apply mul_le_mul_of_nonneg_left _ (by positivity)
          exact stochastic_entry_le_one _ (stochastic_pow M hM k) s t
      _ = ((7:ℚ)/10)^(k-1) := mul_one _


/-- C7 (witness): the normalized influence theorem instantiated on the
constructed default matrix, source QIAN (0), target SHE (1), max_order 3. -/
theorem C7_total_influence_witness :
    0 ≤ compute_total_influence fundamental_matrix 0 1 3 ∧
    compute_total_influence fundamental_matrix 0 1 3 ≤ 1 := by
  have h := C7_total_influence_normalized fundamental_matrix 0 1 3
    fundamental_matrix_stochastic (by norm_num) (by norm_num)
  exact ⟨h.2.1, h.2.2⟩

theorem finRange_eight : (List.finRange 8) = [0,1,2,3,4,5,6,7] := by decide

set_option maxHeartbeats 3200000 in
theorem conflict_fm : compute_conflict_tension fm_lit = 7501/16720 := by
  have h : conflict_contributions fm_lit = [5/38, 149/209, 5/38, 1/5, 3/4, 1/5, 149/209, 3/4] := by
    rw [conflict_contributions, finRange_eight]
    norm_num [fm_lit, List.filterMap, Fin.ext_iff, fv0, fv1, fv2, fv3, fv4, fv5, fv6, fv7,
      max_def, min_def]
  rw [compute_conflict_tension]
  simp only [h]
  norm_num [min_def]

theorem structural_half : compute_structural_tension (List.replicate 8 (1/2)) = 0 := by
  have hmean : list_mean (List.replicate 8 (1/2)) = 1/2 := by
    norm_num [list_mean, List.sum_replicate]
  have hvar : list_var (List.replicate 8 (1/2)) = 0 := by
    norm_num [list_var, hmean, List.map_replicate, List.sum_replicate]
  rw [compute_structural_tension]
  rw [if_neg (by norm_num), if_neg (by rw [hmean]; norm_num)]
  rw [list_std, hvar]
  norm_num

theorem potential_half : compute_potential_tension (List.replicate 8 (1/2)) = 1/2 := by
  have hmean : list_mean (List.replicate 8 (1/2)) = 1/2 := by
    norm_num [list_mean, List.sum_replicate]
  rw [compute_potential_tension, if_neg (by norm_num), hmean]
  norm_num [min_def]

theorem dynamic_le_one (M : MatQ) : compute_dynamic_tension M ≤ 1 := by
  rw [compute_dynamic_tension]
  split
  · norm_num
  · exact min_le_left 1 _

/-- C8: on the matrix built from the default constant tables with all eight
intensities equal to 0.5, the weighted tension aggregate
`0.3*structural + 0.2*dynamic + 0.25*potential + 0.25*conflict` is strictly
below the 0.5 cut point, so its classified level is "low" (低) or
"very-low" (极低). -/
theorem C8_default_tension_low :
    (compute_tension_field fundamental_matrix (List.replicate 8 (1/2))).total < 1/2 ∧
    (classify_tension_level ((compute_tension_field fundamental_matrix (List.replicate 8 (1/2))).total) = "低" ∨
     classify_tension_level ((compute_tension_field fundamental_matrix (List.replicate 8 (1/2))).total) = "极低") := by
  rw [fm_eq]
  have htot : (compute_tension_field fm_lit (List.replicate 8 (1/2))).total < 1/2 := by
    rw [compute_tension_field]
    simp only [structural_half, potential_half, conflict_fm]
    have hd := dynamic_le_one fm_lit
    push_cast
    nlinarith [hd]
  refine ⟨htot, ?_⟩
  rw [classify_tension_level]
  by_cases hlow : (compute_tension_field fm_lit (List.replicate 8 (1/2))).total < 1/5
  · rw [if_pos hlow]
    right
    rfl
  · rw [if_neg hlow, if_pos htot]
    left
    rfl




/-- C4 (counterexample): the pressure 2 lies outside [0,1] and the empty
element map misses every required element, yet both evaluation-surface calls
return a successful result instead of an input-domain error: no rejection
happens and the full computation is performed. -/
theorem C4_counterexample_no_rejection :
    (1:ℝ) < 2 ∧
    compute_primal_excitation_checked 2 = Except.ok (compute_primal_excitation 2) ∧
    compute_tension_field_checked fundamental_matrix [] =
      Except.ok (compute_tension_field fundamental_matrix []) :=
  ⟨by norm_num, rfl, rfl⟩

/-- C4 (amended): the public evaluation surface performs no input validation at
all and never errors: for every pressure (also outside [0,1]) the excitation
call returns ok of a value still clipped into [0.05, 1.2], and for every
element-state list (also with required elements missing) the tension call
returns ok of the computed field. -/
theorem C4_no_input_validation_amended :
    ∀ (p : ℝ) (M : MatQ) (states : List ℚ),
      compute_primal_excitation_checked p = Except.ok (compute_primal_excitation p) ∧
      (1/20 ≤ compute_primal_excitation p ∧ compute_primal_excitation p ≤ 6/5) ∧
      compute_tension_field_checked M states =
        Except.ok (compute_tension_field M states) := by
  intro p M states
  refine ⟨rfl, ⟨le_max_left _ _, max_le (by norm_num) (min_le_left _ _)⟩, rfl⟩


/-- C9: two elimination-justification calls identical except that one reason
text contains a keyword of the fixed survival set and the other contains none
of them: the call with the keyword scores strictly higher (its base 0.8 is
doubled by the survival multiplier 2.0, all other components equal). -/
theorem C9_survival_keyword_strictly_higher
    (agent_type r1 r2 : String) (ap tp : ℚ) (hcb : Bool)
    (h1 : reason_has_survival_keyword r1 = true)
    (h2 : reason_has_survival_keyword r2 = false) :
    (compute_elimination_justification agent_type r2 ap tp hcb).score <
    (compute_elimination_justification agent_type r1 ap tp hcb).score := by
  simp only [compute_elimination_justification, h1, h2]
  norm_num

/-- C9 (witness): the strict increase instantiated at the reason texts
"survival" and "expand" with all other arguments equal. -/
theorem C9_survival_keyword_witness :
    reason_has_survival_keyword "survival" = true ∧
    reason_has_survival_keyword "expand" = false ∧
    (compute_elimination_justification "Individual" "expand" (1/2) (1/2) false).score <
    (compute_elimination_justification "Individual" "survival" (1/2) (1/2) false).score :=
  ⟨by decide, by decide,
    C9_survival_keyword_strictly_higher "Individual" "survival" "expand" (1/2) (1/2) false
      (by decide) (by decide)⟩

/-- C10: under the default configuration the elimination justification is
always granted — for every agent type, reason text, primal values in [0,1] and
collective-benefit flag, the total score is at least the base 0.8 and so
exceeds the 0.6 threshold. -/
theorem C10_always_justified (agent_type reason : String) (ap tp : ℚ) (hcb : Bool)
    (h0a : 0 ≤ ap) (h1a : ap ≤ 1) (h0t : 0 ≤ tp) (h1t : tp ≤ 1) :
    (compute_elimination_justification agent_type reason ap tp hcb).justified = true := by
  simp only [compute_elimination_justification]
  rw [decide_eq_true_eq]
  split_ifs <;> nlinarith

/-- C10 (witness): the universal justification instantiated at an individual
agent with a non-survival reason, both primals 0.5 and no collective
benefit. -/
theorem C10_always_justified_witness :
    (0:ℚ) ≤ 1/2 ∧ (1/2:ℚ) ≤ 1 ∧
    (compute_elimination_justification "Individual" "expand" (1/2) (1/2) false).justified = true :=
  ⟨by norm_num, by norm_num,
    C10_always_justified "Individual" "expand" (1/2) (1/2) false
      (by norm_num) (by norm_num) (by norm_num) (by norm_num)⟩

theorem crisis_not_maintainable : ¬ is_maintainable crisis_field_state := by
  rw [is_maintainable]
  norm_num [crisis_field_state]

theorem crisis_residue (e : ℚ) :
    calculate_primal_residue e (1/10) = min 1 (e * (1/10)) := by
  rw [calculate_primal_residue, if_neg (by norm_num)]

theorem crisis_assess_type (e : ℚ) (ts : List Bool) :
    (assess_chaos crisis_field_state e ts).chaos_type = ChaosType.PRIMAL := by
  simp only [assess_chaos, determine_chaos_type]
  rw [if_pos crisis_not_maintainable]

theorem crisis_assess_residue (e : ℚ) (ts : List Bool) :
    (assess_chaos crisis_field_state e ts).primal_residue = min 1 (e * (1/10)) := by
  simp only [assess_chaos]
  exact crisis_residue e

theorem crisis_determine (r : ℚ) (ts : List Bool) :
    determine_chaos_type crisis_field_state r ts = ChaosType.PRIMAL := by
  rw [determine_chaos_type, if_pos crisis_not_maintainable]

theorem residue_le_one (e f : ℚ) : calculate_primal_residue e f ≤ 1 := by
  rw [calculate_primal_residue]
  split <;> exact min_le_left _ _

theorem crisis_assess_urgency (e : ℚ) (ts : List Bool) :
    (assess_chaos crisis_field_state e ts).guidance_urgency = 1 := by
  simp only [assess_chaos, calculate_guidance_urgency]
  rw [if_pos crisis_not_maintainable]
  rw [if_pos (by norm_num [crisis_field_state] : (7:ℚ)/10 < crisis_field_state.fragmentation)]
  rw [if_pos (by norm_num [crisis_field_state] : crisis_field_state.target_clarity < (1:ℚ)/5)]
  rw [crisis_determine, chaos_type_contribution]
  rw [min_eq_left]
  have hres := residue_le_one e crisis_field_state.primal_flow
  linarith

theorem crisis_trigger_count : kunzhuan_trigger_count crisis_field_state = 4 := by
  rw [kunzhuan_trigger_count]
  norm_num [crisis_field_state, kunzhuan_fragmentation_threshold]

theorem crisis_check (e : ℚ) (ts : List Bool) :
    check_kunzhuan_required (assess_chaos crisis_field_state e ts) := by
  left
  rw [show (assess_chaos crisis_field_state e ts).field_state = crisis_field_state from rfl]
  rw [crisis_trigger_count, kunzhuan_min_conditions]
  norm_num

theorem crisis_select (e : ℚ) (hres : calculate_primal_residue e (1/10) < 1/10) :
    ∀ ts : List Bool,
      select_kunzhuan_method (assess_chaos crisis_field_state e ts) =
        KunzhuanMethod.radical_simplification := by
  intro ts
  set a := assess_chaos crisis_field_state e ts with ha
  have hres' : a.primal_residue < 1/10 := by
    rw [ha, crisis_assess_residue]
    rw [crisis_residue] at hres
    exact hres
  have m1 : method_applicable a .primal_realignment = false := by
    rw [method_applicable]
    exact decide_eq_false (by linarith)
  have m2 : method_applicable a .emergent_guidance = false := by
    rw [method_applicable]
    apply decide_eq_false
    rw [ha, crisis_assess_type]
    intro hcon
    exact ChaosType.noConfusion hcon
  have m3 : method_applicable a .radical_simplification = true := by
    rw [method_applicable]
    apply decide_eq_true
    rw [ha]
    rw [show (assess_chaos crisis_field_state e ts).field_state = crisis_field_state from rfl]
    norm_num [crisis_field_state]
  have m4 : method_applicable a .complete_restart = true := by
    rw [method_applicable]
    exact decide_eq_true hres'
  rw [select_kunzhuan_method, kunzhuan_method_order]
  have hfilter : List.filter (method_applicable a)
      [KunzhuanMethod.primal_realignment, KunzhuanMethod.emergent_guidance,
       KunzhuanMethod.radical_simplification, KunzhuanMethod.complete_restart] =
      [KunzhuanMethod.radical_simplification, KunzhuanMethod.complete_restart] := by
    simp [List.filter_cons, List.filter_nil, m1, m2, m3, m4]
  rw [hfilter]
  show (if 4/5 < a.guidance_urgency then
      ((KunzhuanMethod.radical_simplification :: [KunzhuanMethod.complete_restart]).find?
        (fun x => decide (x = KunzhuanMethod.radical_simplification) ||
          decide (x = KunzhuanMethod.complete_restart))).getD
        KunzhuanMethod.radical_simplification
    else KunzhuanMethod.radical_simplification) = KunzhuanMethod.radical_simplification
  rw [if_pos (by rw [ha, crisis_assess_urgency]; norm_num)]
  rfl

/-- C1 (counterexample): at the field state (cohesion 0.1, fragmentation 0.9,
primal_flow 0.1, target_clarity 0.1) with excitation 0.5 the residue is
0.05 < 0.1, yet the selected strategy is `radical_simplification`, not
`complete_restart`: fragmentation 0.9 > 0.7 makes `radical_simplification`
applicable, it precedes `complete_restart` in the method table, and the
urgency-above-0.8 preference returns the first of the two. -/
theorem C1_counterexample_strategy :
    calculate_primal_residue (1/2) (1/10) < 1/10 ∧
    regime_evaluate crisis_field_state (1/2) [] =
      some KunzhuanMethod.radical_simplification ∧
    regime_evaluate crisis_field_state (1/2) [] ≠
      some KunzhuanMethod.complete_restart := by
  have hres : calculate_primal_residue (1/2) (1/10) < 1/10 := by
    rw [crisis_residue]
    rw [min_eq_right (by norm_num)]
    norm_num
  refine ⟨hres, ?_, ?_⟩
  · rw [regime_evaluate]
    rw [if_pos (crisis_check (1/2) [])]
    rw [crisis_select (1/2) hres []]
  · rw [regime_evaluate]
    rw [if_pos (crisis_check (1/2) [])]
    rw [crisis_select (1/2) hres []]
    intro hcon
    have := Option.some.inj hcon
    exact KunzhuanMethod.noConfusion this

/-- C1 (amended): at the field state (cohesion 0.1, fragmentation 0.9,
primal_flow 0.1, target_clarity 0.1) all four thresholds are breached
(4 >= the default minimum 3), so the regime monitor always returns a non-null
event; and whenever the computed primal residue is below 0.1 the strategy
selected is `radical_simplification` (which shadows `complete_restart` under
the high-urgency preference). -/
theorem C1_regime_event_amended (e : ℚ) (ts : List Bool) :
    (regime_evaluate crisis_field_state e ts).isSome = true ∧
    (calculate_primal_residue e (1/10) < 1/10 →
      regime_evaluate crisis_field_state e ts =
        some KunzhuanMethod.radical_simplification) := by
  constructor
  · rw [regime_evaluate]
    rw [if_pos (crisis_check e ts)]
    rfl
  · intro hres
    rw [regime_evaluate]
    rw [if_pos (crisis_check e ts)]
    rw [crisis_select e hres ts]

/-- C1 (witness): the amended statement instantiated at excitation 0.5 and an
empty target list. -/
theorem C1_regime_event_witness :
    calculate_primal_residue (1/2) (1/10) < 1/10 ∧
    (regime_evaluate crisis_field_state (1/2) []).isSome = true ∧
    regime_evaluate crisis_field_state (1/2) [] =
      some KunzhuanMethod.radical_simplification := by
  have hres : calculate_primal_residue (1/2) (1/10) < 1/10 := by
    rw [crisis_residue, min_eq_right (by norm_num)]
    norm_num
  exact ⟨hres, (C1_regime_event_amended (1/2) []).1, (C1_regime_event_amended (1/2) []).2 hres⟩


/-- C5: for every pressure input p (in particular every p in [0,1]) the
excitation function returns a value in the closed interval
[0.05, 1.2] = [1/20, 6/5], by the final clip `max(0.05, min(1.2, _))`. -/
theorem C5_excitation_bounds (p : ℝ) :
    1/20 ≤ compute_primal_excitation p ∧ compute_primal_excitation p ≤ 6/5 := by
  constructor
  · exact le_max_left _ _
  · exact max_le (by norm_num) (min_le_left _ _)

theorem exp_point_upper : Real.exp (567/1000) < 23/13 := by
  have h := @Real.exp_bound' (567/1000) (by norm_num) (by norm_num) 4 (by norm_num)
  calc Real.exp (567/1000) ≤ _ := h
    _ < 23/13 := by
      simp [Finset.sum_range_succ]
      norm_num [Nat.factorial]

theorem exp_big_lower : (143:ℝ) < Real.exp (38/5) := by
  have h27 : (2.7:ℝ) ≤ Real.exp 1 := le_of_lt (lt_trans (by norm_num) Real.exp_one_gt_d9)
  have h5 : (2.7:ℝ)^(5:ℕ) ≤ Real.exp 1 ^ (5:ℕ) := pow_le_pow_left₀ (by norm_num) h27 5
  have he : Real.exp 1 ^ (5:ℕ) = Real.exp 5 := by
    rw [← Real.exp_nat_mul]
    norm_num
  have h2 : Real.exp 5 ≤ Real.exp (38/5) := Real.exp_le_exp.mpr (by norm_num)
  nlinarith [h5, h2]

theorem suppression_mem (p : ℝ) : 0 < suppression_term p ∧ suppression_term p < 1 := by
  rw [suppression_term]
  have he : 0 < Real.exp (-(10 * ((4/5) * p - 1))) := Real.exp_pos _
  constructor
  · positivity
  · rw [div_lt_one (by linarith)]
    linarith

theorem suppression_mono (p q : ℝ) (hpq : p ≤ q) :
    suppression_term p ≤ suppression_term q := by
  rw [suppression_term, suppression_term]
  have hp : 0 < 1 + Real.exp (-(10 * ((4/5) * p - 1))) := by positivity
  have hq : 0 < 1 + Real.exp (-(10 * ((4/5) * q - 1))) := by positivity
  rw [div_le_div_iff hp hq]
  have : Real.exp (-(10 * ((4/5) * q - 1))) ≤ Real.exp (-(10 * ((4/5) * p - 1))) :=
    Real.exp_le_exp.mpr (by linarith)
  linarith

theorem suppression_increment (p q : ℝ) (hp : 0 ≤ p) (hpq : p ≤ q) (hq : q ≤ 3/10) :
    suppression_term q - suppression_term p ≤ 8 * (q - p) / 143 := by
  rw [suppression_term, suppression_term]
  set Ep := Real.exp (-(10 * ((4/5) * p - 1))) with hEp
  set Eq := Real.exp (-(10 * ((4/5) * q - 1))) with hEq
  have hEppos : 0 < Ep := Real.exp_pos _
  have hEqpos : 0 < Eq := Real.exp_pos _
  have h1p : (1 + Ep) ≠ 0 := by positivity
  have h1q : (1 + Eq) ≠ 0 := by positivity
  have hD : 0 ≤ q - p := by linarith
  have hdiff : 1 / (1 + Eq) - 1 / (1 + Ep) = (Ep - Eq) / ((1 + Ep) * (1 + Eq)) := by
    rw [div_sub_div 1 1 h1q h1p]
    rw [show (1 * (1 + Ep) - (1 + Eq) * 1) = Ep - Eq by ring,
        show ((1 + Eq) * (1 + Ep)) = ((1 + Ep) * (1 + Eq)) by ring]
  have hkey : Ep - Eq ≤ Ep * (8 * (q - p)) := by
    have h2 : 1 + (-(8*(q-p))) ≤ Real.exp (-(8*(q-p))) := by
      have h := Real.add_one_le_exp (-(8*(q-p)))
      linarith
    have h3 : Eq = Ep * Real.exp (-(8*(q-p))) := by
      rw [hEp, hEq, ← Real.exp_add]
      congr 1
      ring
    nlinarith [h2, h3, hEppos]
  have hEq_gt : (143:ℝ) < Eq := by
    have hle : Real.exp (38/5) ≤ Eq := by
      rw [hEq]
      apply Real.exp_le_exp.mpr
      linarith
    linarith [exp_big_lower]
  rw [hdiff, div_le_div_iff (by positivity) (by norm_num)]
  calc (Ep - Eq) * 143 ≤ (Ep * (8 * (q - p))) * 143 :=
        mul_le_mul_of_nonneg_right hkey (by norm_num)
    _ = (8 * (q - p)) * Ep * 143 := by ring
    _ ≤ (8 * (q - p)) * Ep * Eq := by
        apply mul_le_mul_of_nonneg_left (le_of_lt hEq_gt)
        positivity
    _ ≤ 8 * (q - p) * ((1 + Ep) * (1 + Eq)) := by
        have hexpand : Ep * Eq ≤ (1 + Ep) * (1 + Eq) := by nlinarith
        calc (8 * (q - p)) * Ep * Eq = (8 * (q - p)) * (Ep * Eq) := by ring
          _ ≤ (8 * (q - p)) * ((1 + Ep) * (1 + Eq)) :=
              mul_le_mul_of_nonneg_left hexpand (by positivity)

theorem hfun_nonneg (p : ℝ) (hp : 0 ≤ p) :
    0 ≤ (69/100) * (1 - Real.exp (-((189/100) * p))) := by
  have h : Real.exp (-((189/100) * p)) ≤ 1 := by
    rw [show (1:ℝ) = Real.exp 0 from (Real.exp_zero).symm]
    apply Real.exp_le_exp.mpr
    nlinarith
  nlinarith

theorem hfun_le_cap (p : ℝ) :
    (69/100) * (1 - Real.exp (-((189/100) * p))) ≤ 69/100 := by
  have h : 0 < Real.exp (-((189/100) * p)) := Real.exp_pos _
  nlinarith

theorem hfun_lt_threshold (p : ℝ) (hp : 0 ≤ p) (hp3 : p ≤ 3/10) :
    (69/100) * (1 - Real.exp (-((189/100) * p))) < 3/10 := by
  have hmono : Real.exp (-(567/1000)) ≤ Real.exp (-((189/100) * p)) := by
    apply Real.exp_le_exp.mpr
    nlinarith
  have hinv : Real.exp (-(567/1000)) = (Real.exp (567/1000))⁻¹ := by
    rw [← Real.exp_neg]
  have hEpos : 0 < Real.exp (567/1000) := Real.exp_pos _
  have hgt : (13:ℝ)/23 < Real.exp (-(567/1000)) := by
    rw [hinv]
    rw [lt_inv_comm₀ (by norm_num) hEpos]
    calc Real.exp (567/1000) < 23/13 := exp_point_upper
      _ = (13/23 : ℝ)⁻¹ := by norm_num
  nlinarith

theorem adapt_on_range (p : ℝ) (hp : 0 ≤ p) (hp3 : p ≤ 3/10) :
    max 0 (adapt_gain_term p) = (69/100) * (1 - Real.exp (-((189/100) * p))) := by
  rw [adapt_gain_term, if_pos (by linarith : p < 7/10),
      min_eq_right (le_of_lt (hfun_lt_threshold p hp hp3)),
      max_eq_right (hfun_nonneg p hp)]

theorem hfun_increment (p q : ℝ) (hp : 0 ≤ p) (hpq : p ≤ q) (hq : q ≤ 3/10) :
    (7371/10000) * (q - p) ≤
      (69/100) * (1 - Real.exp (-((189/100) * q))) -
      (69/100) * (1 - Real.exp (-((189/100) * p))) := by
  have hstep : Real.exp (-((189/100) * p)) - Real.exp (-((189/100) * q)) ≥
      Real.exp (-((189/100) * q)) * ((189/100) * (q - p)) := by
    have hsplit : Real.exp (-((189/100) * p)) =
        Real.exp (-((189/100) * q)) * Real.exp ((189/100) * (q - p)) := by
      rw [← Real.exp_add]
      congr 1
      ring
    have hlin : (189/100) * (q - p) + 1 ≤ Real.exp ((189/100) * (q - p)) :=
      Real.add_one_le_exp _
    have hpos : 0 < Real.exp (-((189/100) * q)) := Real.exp_pos _
    nlinarith [hsplit, hlin, hpos]
  have hlb : (13:ℝ)/23 < Real.exp (-((189/100) * q)) := by
    have hmono : Real.exp (-(567/1000)) ≤ Real.exp (-((189/100) * q)) := by
      apply Real.exp_le_exp.mpr
      nlinarith
    have hinv : Real.exp (-(567/1000)) = (Real.exp (567/1000))⁻¹ := by
      rw [← Real.exp_neg]
    have hEpos : 0 < Real.exp (567/1000) := Real.exp_pos _
    have : (13:ℝ)/23 < Real.exp (-(567/1000)) := by
      rw [hinv]
      rw [lt_inv_comm₀ (by norm_num) hEpos]
      calc Real.exp (567/1000) < 23/13 := exp_point_upper
        _ = (13/23 : ℝ)⁻¹ := by norm_num
    linarith
  have hD : 0 ≤ q - p := by linarith
  nlinarith [hstep, hlb, hD]

/-- C6: with the default constants (b = 0.85, s = 0.80, a = 0.69, r = 1.89,
k = 10.0) the excitation function is monotonically non-decreasing on the
pressure interval [0, 0.3]: for p ≤ q both in [0, 0.3],
compute(p) ≤ compute(q). -/
theorem C6_excitation_monotone (p q : ℝ) (hp : 0 ≤ p) (hpq : p ≤ q) (hq : q ≤ 3/10) :
    compute_primal_excitation p ≤ compute_primal_excitation q := by
  rw [compute_primal_excitation, compute_primal_excitation]
  apply max_le_max le_rfl
  apply min_le_min le_rfl
  rw [adapt_on_range p hp (by linarith), adapt_on_range q (by linarith) hq]
  set σp := suppression_term p with hσp
  set σq := suppression_term q with hσq
  set Hp := (69/100) * (1 - Real.exp (-((189/100) * p))) with hHp
  set Hq := (69/100) * (1 - Real.exp (-((189/100) * q))) with hHq
  have f1 : σq - σp ≤ 8 * (q - p) / 143 := suppression_increment p q hp hpq hq
  have f2 : σp ≤ σq := suppression_mono p q hpq
  have f3 : σq < 1 := (suppression_mem q).2
  have f4 : 0 < σp := (suppression_mem p).1
  have f5 : (7371/10000) * (q - p) ≤ Hq - Hp := hfun_increment p q hp hpq hq
  have f6 : 0 ≤ Hp := hfun_nonneg p hp
  have f7 : Hp ≤ 69/100 := hfun_le_cap p
  have f8 : 0 ≤ q - p := by linarith
  have hHqHp : 0 ≤ Hq - Hp := le_trans (by nlinarith) f5
  have h6 : (1:ℝ)/5 ≤ 1 - (4/5) * σq := by nlinarith
  have key : (4/5) * (σq - σp) * (1 + Hp) ≤ (1/5) * (Hq - Hp) := by
    have s1 : (4/5) * (σq - σp) * (1 + Hp) ≤ (4/5) * (8 * (q - p) / 143) * (169/100) := by
      apply mul_le_mul
      · apply mul_le_mul_of_nonneg_left f1
        norm_num
      · linarith
      · linarith
      · positivity
    have s2 : (4/5) * (8 * (q - p) / 143) * (169/100) ≤ (1/5) * ((7371/10000) * (q - p)) := by
      nlinarith [f8]
    have s3 : (1/5) * ((7371/10000) * (q - p)) ≤ (1/5) * (Hq - Hp) := by
      nlinarith [f5]
    linarith
  have t1 : (1/5) * (Hq - Hp) ≤ (1 - (4/5) * σq) * (Hq - Hp) :=
    mul_le_mul_of_nonneg_right h6 hHqHp
  nlinarith [key, t1]

/-- C6 (witness): monotonicity instantiated at the endpoints 0 and 0.3. -/
theorem C6_excitation_monotone_witness :
    (0:ℝ) ≤ 0 ∧ (0:ℝ) ≤ 3/10 ∧ (3/10:ℝ) ≤ 3/10 ∧
    compute_primal_excitation 0 ≤ compute_primal_excitation (3/10) :=
  ⟨by norm_num, by norm_num, by norm_num,
    C6_excitation_monotone 0 (3/10) (by norm_num) (by norm_num) (by norm_num)⟩

